import Mathlib

/-!
Verification of the STUN probe script `wireguard-client/test-stun.py`.

The script builds a 20-byte STUN Binding Request (RFC 5389), sends it over
UDP, receives at most one datagram, parses the fixed 20-byte header and
classifies the reply.  We embed the byte-level construction and parsing as
pure functions on `List Nat` (one entry per byte), and the effectful probe
`test_stun` as a function of an environment describing the outcome of each
I/O step (socket creation, send, receive), returning a record of the
boolean result, the socket lifecycle, and the diagnostics printed.
-/

/-- Big-endian packing of a 16-bit value, as `struct.pack('!H', n)`. -/
def pack_H (n : Nat) : List Nat := [n / 256 % 256, n % 256]

/-- Big-endian packing of a 32-bit value, as `struct.pack('!I', n)`. -/
def pack_I (n : Nat) : List Nat :=
  [n / 16777216 % 256, n / 65536 % 256, n / 256 % 256, n % 256]

/-- `create_stun_binding_request`, modelled as a function of the 12
`os.urandom(12)` bytes it obtains: `struct.pack('!HHI', 0x0001, 0x0000,
0x2112A442)` followed by the transaction id bytes. -/
def create_stun_binding_request (transaction_id_bytes : List Nat) : List Nat :=
  pack_H 0x0001 ++ pack_H 0x0000 ++ pack_I 0x2112A442 ++ transaction_id_bytes

/-- Python slice `l[a:b]` for `0 ≤ a ≤ b` (never raises). -/
def pySlice (l : List Nat) (a b : Nat) : List Nat := (l.drop a).take (b - a)

/-- `struct.unpack('!H', bs)[0]`: defined only when `bs` has exactly two
bytes; `none` models the `struct.error` exception. -/
def unpackBE2 : List Nat → Option Nat
  | [b0, b1] => some (b0 * 256 + b1)
  | _ => none

/-- `struct.unpack('!I', bs)[0]`: defined only when `bs` has exactly four
bytes; `none` models the `struct.error` exception. -/
def unpackBE4 : List Nat → Option Nat
  | [b0, b1, b2, b3] => some (((b0 * 256 + b1) * 256 + b2) * 256 + b3)
  | _ => none

/-- The result of classifying a received response (spec entity
`ProbeResult`): the verdict plus the header fields that were extracted,
`none` when the short-response branch extracts nothing. -/
structure ProbeResult where
  succeeded : Bool
  receivedType : Option Nat
  receivedLength : Option Nat
  receivedCookie : Option Nat
  deriving DecidableEq

/-- The response-parsing part of `test_stun` (lines 56-85), the spec's
`classify_response`: if the response has at least 20 bytes, unpack
`response[0:2]`, `response[2:4]`, `response[4:8]` and succeed exactly when
the message type is `0x0101`; otherwise report failure without extracting
any field.  The outer `Option` is `none` when some unpack would raise,
which the totality results show never happens. -/
def classify_response (response : List Nat) : Option ProbeResult :=
  if 20 ≤ response.length then
    match unpackBE2 (pySlice response 0 2), unpackBE2 (pySlice response 2 4),
        unpackBE4 (pySlice response 4 8) with
    | some t, some ml, some c => some ⟨t == 0x0101, some t, some ml, some c⟩
    | _, _, _ => none
  else
    some ⟨false, none, none, none⟩

/-- The big-endian 16-bit message type in bytes 0-1 of a response. -/
def respType (resp : List Nat) : Nat := resp.getD 0 0 * 256 + resp.getD 1 0

/-- The big-endian 16-bit message length in bytes 2-3 of a response. -/
def respLen16 (resp : List Nat) : Nat := resp.getD 2 0 * 256 + resp.getD 3 0

/-- The big-endian 32-bit magic cookie in bytes 4-7 of a response. -/
def respCookie (resp : List Nat) : Nat :=
  ((resp.getD 4 0 * 256 + resp.getD 5 0) * 256 + resp.getD 6 0) * 256 + resp.getD 7 0

lemma exists_cons8 (l : List Nat) (h : 8 ≤ l.length) :
    ∃ b0 b1 b2 b3 b4 b5 b6 b7 t,
      l = b0 :: b1 :: b2 :: b3 :: b4 :: b5 :: b6 :: b7 :: t := by
  rcases l with _ | ⟨b0, l⟩
  · simp at h
  rcases l with _ | ⟨b1, l⟩
  · simp at h
  rcases l with _ | ⟨b2, l⟩
  · simp at h
  rcases l with _ | ⟨b3, l⟩
  · simp at h
  rcases l with _ | ⟨b4, l⟩
  · simp at h
  rcases l with _ | ⟨b5, l⟩
  · simp at h
  rcases l with _ | ⟨b6, l⟩
  · simp at h
  rcases l with _ | ⟨b7, l⟩
  · simp at h
  exact ⟨b0, b1, b2, b3, b4, b5, b6, b7, l, rfl⟩

/-- On any response of at least 20 bytes, classification extracts the three
header fields and succeeds exactly when the message type is `0x0101`. -/
lemma classify_response_of_long (resp : List Nat) (h : 20 ≤ resp.length) :
    classify_response resp =
      some ⟨respType resp == 0x0101, some (respType resp),
        some (respLen16 resp), some (respCookie resp)⟩ := by
  obtain ⟨b0, b1, b2, b3, b4, b5, b6, b7, t, rfl⟩ :=
    exists_cons8 resp (by omega)
  unfold classify_response
  rw [if_pos h]
  rfl

/-- On any response of fewer than 20 bytes, classification reports failure
with no fields extracted. -/
lemma classify_response_of_short (resp : List Nat) (h : resp.length < 20) :
    classify_response resp = some ⟨false, none, none, none⟩ := by
  unfold classify_response
  rw [if_neg (by omega)]

/-- The lines `test_stun` prints, abstracted to tags: the per-stage status
lines, the field interpretation block, and each diagnostic. -/
inductive Msg
  | testing
  | sentOk
  | receivedOk
  | fieldLines
  | successVerdict
  | unexpectedTypeMsg
  | tooShortMsg
  | timeoutMsg
  | errorMsg
  deriving DecidableEq

/-- Outcome of the single `sock.recvfrom(1024)` call: a datagram, a
`socket.timeout`, or any other socket exception. -/
inductive RecvOutcome
  | ok (resp : List Nat)
  | timeout
  | fail
  deriving DecidableEq

/-- The environment a run of `test_stun` faces: whether `socket.socket`
succeeds, whether `sock.sendto` succeeds, and what `recvfrom` yields. -/
structure Env where
  socketOk : Bool
  sendOk : Bool
  recv : RecvOutcome
  deriving DecidableEq

/-- Observable record of one run of `test_stun`: the returned boolean, the
socket lifecycle, whether an exception escaped the function, and the
printed diagnostics. -/
structure Run where
  result : Bool
  socketCreated : Bool
  socketClosed : Bool
  uncaught : Bool
  output : List Msg
  deriving DecidableEq

/-- The receive timeout installed by `sock.settimeout(5)`. -/
def timeoutSeconds : Nat := 5

/-- `test_stun(host, port)` (lines 33-97).  The outer `try` spans the whole
body and its `except Exception` prints a diagnostic and returns `False`.
The inner `try` starts only at the `recvfrom` call; its `finally` closes
the socket, so every path that reaches the receive step closes the socket,
but a `sendto` failure propagates to the outer handler before the inner
`try` is entered and the socket is never closed on that path. -/
def test_stun (env : Env) : Run :=
  if env.socketOk then
    if env.sendOk then
      match env.recv with
      | .ok resp =>
        if 20 ≤ resp.length then
          match classify_response resp with
          | some r =>
            if r.succeeded then
              ⟨true, true, true, false,
                [.testing, .sentOk, .receivedOk, .fieldLines, .successVerdict]⟩
            else
              ⟨false, true, true, false,
                [.testing, .sentOk, .receivedOk, .fieldLines, .unexpectedTypeMsg]⟩
          | none =>
            ⟨false, true, true, false, [.testing, .sentOk, .receivedOk, .errorMsg]⟩
        else
          ⟨false, true, true, false, [.testing, .sentOk, .receivedOk, .tooShortMsg]⟩
      | .timeout =>
        ⟨false, true, true, false, [.testing, .sentOk, .timeoutMsg]⟩
      | .fail =>
        ⟨false, true, true, false, [.testing, .sentOk, .errorMsg]⟩
    else
      ⟨false, true, false, false, [.testing, .errorMsg]⟩
  else
    ⟨false, false, false, false, [.errorMsg]⟩

/-- Whitespace stripped by Python `int(str)` before parsing. -/
def isPySpace (c : Char) : Bool :=
  c = ' ' ∨ c = '\t' ∨ c = '\n' ∨ c = '\r' ∨ c = '\x0b' ∨ c = '\x0c'

/-- Strip leading and trailing whitespace from a character list. -/
def pyStrip (cs : List Char) : List Char :=
  ((cs.dropWhile isPySpace).reverse.dropWhile isPySpace).reverse

/-- After the first digit of a Python integer literal: digits, with single
underscores allowed only between digits. -/
def pyDigitsRest : List Char → Bool
  | [] => true
  | '_' :: c :: cs => c.isDigit && pyDigitsRest cs
  | ['_'] => false
  | c :: cs => c.isDigit && pyDigitsRest cs

/-- A nonempty digit group as accepted by Python `int(str)` in base 10. -/
def pyDigits : List Char → Bool
  | [] => false
  | c :: cs => c.isDigit && pyDigitsRest cs

/-- Decimal value of a digit group, skipping grouping underscores. -/
def digitsVal (cs : List Char) : Nat :=
  cs.foldl (fun n c => if c = '_' then n else n * 10 + (c.toNat - 48)) 0

/-- Python `int(s)` for a base-10 string: optional surrounding whitespace,
optional sign, then an underscore-grouped digit string; `none` models the
`ValueError` raised on anything else. -/
def pyInt (s : String) : Option Int :=
  let t := pyStrip s.data
  match t with
  | '-' :: rest => if pyDigits rest then some (-(digitsVal rest : Int)) else none
  | '+' :: rest => if pyDigits rest then some (digitsVal rest : Int) else none
  | _ => if pyDigits t then some (digitsVal t : Int) else none

/-- The exception `int(sys.argv[2])` can raise in the `__main__` block. -/
inductive PyExn
  | valueError
  deriving DecidableEq

/-- What a completed run of the `__main__` block observes: the host and
port passed to `test_stun`, the probe's run, and the `sys.exit` code. -/
structure MainExit where
  host : String
  port : Int
  run : Run
  code : Nat
  deriving DecidableEq

/-- The hardcoded default host of the `__main__` block. -/
def defaultHost : String := "mail.s0me.uk"

/-- The completed `__main__` block once the port has parsed: `host =
sys.argv[1] if len(sys.argv) > 1 else "mail.s0me.uk"`, then
`sys.exit(0 if test_stun(host, port) else 1)`. -/
def mkExit (argv : List String) (port : Int) (env : Env) : MainExit :=
  let r := test_stun env
  ⟨if 1 < argv.length then argv.getD 1 "" else defaultHost, port, r,
    if r.result then 0 else 1⟩

/-- The `__main__` block (lines 99-104): `host = sys.argv[1] if
len(sys.argv) > 1 else "mail.s0me.uk"`, `port = int(sys.argv[2]) if
len(sys.argv) > 2 else 3478`, then `sys.exit(0 if test_stun(host, port)
else 1)`.  `argv` includes the script name at index 0.  An invalid port
literal makes `int` raise before the probe runs, so the error outcome
carries no probe run and no output. -/
def mainEntry (argv : List String) (env : Env) : Except PyExn MainExit :=
  if 2 < argv.length then
    match pyInt (argv.getD 2 "") with
    | some n => .ok (mkExit argv n env)
    | none => .error .valueError
  else .ok (mkExit argv 3478 env)

lemma test_stun_closed_of_recv (rv : RecvOutcome) :
    (test_stun ⟨true, true, rv⟩).socketClosed = true := by
  cases rv with
  | ok resp =>
    unfold test_stun
    repeat' split
    all_goals simp_all
  | timeout => rfl
  | fail => rfl

lemma test_stun_uncaught_false (env : Env) : (test_stun env).uncaught = false := by
  obtain ⟨so, se, rv⟩ := env
  cases so
  · rfl
  cases se
  · rfl
  cases rv with
  | ok resp =>
    unfold test_stun
    repeat' split
    all_goals simp_all
  | timeout => rfl
  | fail => rfl

lemma test_stun_short_eq (resp : List Nat) (h : resp.length < 20) :
    test_stun ⟨true, true, .ok resp⟩ =
      ⟨false, true, true, false, [.testing, .sentOk, .receivedOk, .tooShortMsg]⟩ := by
  simp [test_stun, show ¬ 20 ≤ resp.length from by omega]

lemma mkExit_code_iff (argv : List String) (port : Int) (env : Env) :
    (mkExit argv port env).code = 0 ↔ (mkExit argv port env).run.result = true := by
  unfold mkExit
  cases h : (test_stun env).result <;> simp [h]

/-- C1: for every received response of at least 20 bytes, classification
yields `succeeded = true` if and only if the big-endian 16-bit message
type in bytes 0-1 equals `0x0101`; a Binding Error Response (`0x0111`) or
any other type yields `succeeded = false` as a normal result (the
classifier returns a `ProbeResult`, it does not raise). -/
theorem classify_success_iff_type (resp : List Nat) (h : 20 ≤ resp.length) :
    ∃ r, classify_response resp = some r ∧
      (r.succeeded = true ↔ respType resp = 0x0101) := by
  refine ⟨_, classify_response_of_long resp h, ?_⟩
  simp

/-- Witness for C1: a 20-byte response of type `0x0101` classifies with
`succeeded = true`, one of type `0x0111` with `succeeded = false`. -/
theorem classify_success_iff_type_witness :
    (∃ r, classify_response
        [1, 1, 0, 0, 33, 18, 164, 66, 0, 0, 0, 0, 0, 0, 0, 0, 0, 0, 0, 0] = some r ∧
      (r.succeeded = true ↔
        respType [1, 1, 0, 0, 33, 18, 164, 66, 0, 0, 0, 0, 0, 0, 0, 0, 0, 0, 0, 0] = 0x0101)) ∧
    (∃ r, classify_response
        [1, 17, 0, 0, 33, 18, 164, 66, 0, 0, 0, 0, 0, 0, 0, 0, 0, 0, 0, 0] = some r ∧
      (r.succeeded = true ↔
        respType [1, 17, 0, 0, 33, 18, 164, 66, 0, 0, 0, 0, 0, 0, 0, 0, 0, 0, 0, 0] = 0x0101)) :=
  ⟨classify_success_iff_type _ (by decide), classify_success_iff_type _ (by decide)⟩

/-- C2: `create_stun_binding_request`, as a function of the 12 random
transaction-id bytes, returns exactly 20 bytes: bytes 0-1 are big-endian
`0x0001`, bytes 2-3 are `0x0000`, bytes 4-7 are big-endian `0x2112A442`,
and bytes 8-19 are exactly the 12 obtained random bytes.  It is a total
function: no error conditions. -/
theorem create_request_layout (tid : List Nat) (h : tid.length = 12) :
    (create_stun_binding_request tid).length = 20 ∧
    pySlice (create_stun_binding_request tid) 0 2 = pack_H 0x0001 ∧
    pySlice (create_stun_binding_request tid) 2 4 = pack_H 0x0000 ∧
    pySlice (create_stun_binding_request tid) 4 8 = pack_I 0x2112A442 ∧
    (create_stun_binding_request tid).drop 8 = tid := by
  have e : create_stun_binding_request tid =
      0 :: 1 :: 0 :: 0 :: 33 :: 18 :: 164 :: 66 :: tid := by
    simp [create_stun_binding_request, pack_H, pack_I]
  rw [e]
  refine ⟨by simp [h], rfl, rfl, rfl, rfl⟩

/-- Witness for C2: the layout at the all-zero 12-byte transaction id. -/
theorem create_request_layout_witness :
    (create_stun_binding_request (List.replicate 12 0)).length = 20 ∧
    pySlice (create_stun_binding_request (List.replicate 12 0)) 0 2 = pack_H 0x0001 ∧
    pySlice (create_stun_binding_request (List.replicate 12 0)) 2 4 = pack_H 0x0000 ∧
    pySlice (create_stun_binding_request (List.replicate 12 0)) 4 8 = pack_I 0x2112A442 ∧
    (create_stun_binding_request (List.replicate 12 0)).drop 8 = List.replicate 12 0 :=
  create_request_layout (List.replicate 12 0) (by decide)

/-- C3: every response shorter than 20 bytes classifies as a failure
without raising (a `ProbeResult` is returned) and without extracting any
header field (all three optional fields are `none`). -/
theorem classify_short_response (resp : List Nat) (h : resp.length < 20) :
    classify_response resp = some ⟨false, none, none, none⟩ :=
  classify_response_of_short resp h

/-- Witness for C3: the empty response. -/
theorem classify_short_response_witness :
    classify_response [] = some ⟨false, none, none, none⟩ :=
  classify_short_response [] (by decide)

/-- C4: two responses of at least 20 bytes that agree on bytes 0-1 receive
the same `succeeded` verdict, whatever their magic cookie, transaction id
or body: the verdict depends only on the message type. -/
theorem classify_verdict_ignores_cookie (r1 r2 : List Nat)
    (h1 : 20 ≤ r1.length) (h2 : 20 ≤ r2.length)
    (e0 : r1.getD 0 0 = r2.getD 0 0) (e1 : r1.getD 1 0 = r2.getD 1 0) :
    (classify_response r1).map ProbeResult.succeeded =
      (classify_response r2).map ProbeResult.succeeded := by
  have e : respType r1 = respType r2 := by
    unfold respType
    rw [e0, e1]
  rw [classify_response_of_long r1 h1, classify_response_of_long r2 h2, e]
  simp

/-- Witness for C4: two 20-byte Binding Error Responses, one with the
valid cookie and one with a corrupted cookie and different body, receive
the same verdict. -/
theorem classify_verdict_ignores_cookie_witness :
    (classify_response
        [1, 17, 0, 0, 33, 18, 164, 66, 0, 0, 0, 0, 0, 0, 0, 0, 0, 0, 0, 0]).map
      ProbeResult.succeeded =
    (classify_response
        [1, 17, 0, 0, 222, 173, 190, 239, 9, 9, 9, 9, 9, 9, 9, 9, 9, 9, 9, 9]).map
      ProbeResult.succeeded :=
  classify_verdict_ignores_cookie _ _ (by decide) (by decide) (by decide) (by decide)

/-- C10: response parsing is total: for every received byte string within
the 1024-byte receive bound, the length guard keeps every slice and
big-endian unpack in bounds, so classification returns a result and never
raises. -/
theorem classify_total (resp : List Nat) (_h : resp.length ≤ 1024) :
    (classify_response resp).isSome = true := by
  rcases Nat.lt_or_ge resp.length 20 with hl | hl
  · rw [classify_response_of_short resp hl]
    rfl
  · rw [classify_response_of_long resp hl]
    rfl

/-- Witness for C10: the empty response parses without raising. -/
theorem classify_total_witness : (classify_response []).isSome = true :=
  classify_total [] (by decide)

/-- C5 counterexample: if the socket is created but the send step fails,
the probe returns with the socket still open — the `finally` that closes
the socket belongs to the inner `try`, which begins only at the receive
call, so the claimed close-on-every-exit-path fails at this input. -/
theorem socket_close_counterexample :
    (test_stun ⟨true, false, RecvOutcome.timeout⟩).socketCreated = true ∧
    (test_stun ⟨true, false, RecvOutcome.timeout⟩).socketClosed = false := by
  decide

/-- C5 amended: after the socket is created, every exit path that reaches
the receive step (successful classification, timeout, receive error,
malformed response) closes the socket before the probe returns; but when
the send step fails, the probe returns a failure with the socket created
and not closed. -/
theorem socket_close_paths (env : Env) (hs : env.socketOk = true) :
    (env.sendOk = true → (test_stun env).socketClosed = true) ∧
    (env.sendOk = false →
      (test_stun env).socketCreated = true ∧
      (test_stun env).socketClosed = false ∧
      (test_stun env).result = false) := by
  obtain ⟨so, se, rv⟩ := env
  replace hs : so = true := hs
  subst hs
  constructor
  · intro hd
    replace hd : se = true := hd
    subst hd
    exact test_stun_closed_of_recv rv
  · intro hd
    replace hd : se = false := hd
    subst hd
    exact ⟨rfl, rfl, rfl⟩

/-- Witness for the amended C5: close on the timeout path, leak on the
failed-send path. -/
theorem socket_close_paths_witness :
    (test_stun ⟨true, true, RecvOutcome.timeout⟩).socketClosed = true ∧
    (test_stun ⟨true, false, RecvOutcome.fail⟩).socketCreated = true ∧
    (test_stun ⟨true, false, RecvOutcome.fail⟩).socketClosed = false :=
  ⟨(socket_close_paths ⟨true, true, RecvOutcome.timeout⟩ rfl).1 rfl,
   ((socket_close_paths ⟨true, false, RecvOutcome.fail⟩ rfl).2 rfl).1,
   ((socket_close_paths ⟨true, false, RecvOutcome.fail⟩ rfl).2 rfl).2.1⟩

/-- C6: when no datagram arrives within the receive timeout (the installed
timeout is 5 seconds), the probe returns a failed-probe outcome — result
`false`, no uncaught exception, a timeout diagnostic — and the process
exits with code 1. -/
theorem timeout_failed_probe (argv : List String) (env : Env)
    (hs : env.socketOk = true) (hd : env.sendOk = true)
    (ht : env.recv = RecvOutcome.timeout) :
    timeoutSeconds = 5 ∧
    (test_stun env).result = false ∧
    (test_stun env).uncaught = false ∧
    Msg.timeoutMsg ∈ (test_stun env).output ∧
    (∀ e, mainEntry argv env = Except.ok e → e.code = 1) := by
  obtain ⟨so, se, rv⟩ := env
  replace hs : so = true := hs
  replace hd : se = true := hd
  replace ht : rv = RecvOutcome.timeout := ht
  subst hs; subst hd; subst ht
  refine ⟨rfl, rfl, rfl, by decide, ?_⟩
  intro e he
  unfold mainEntry at he
  split at he
  · split at he
    · injection he with he
      subst he
      rfl
    · exact Except.noConfusion he
  · injection he with he
    subst he
    rfl

/-- Witness for C6: the timeout environment yields result `false` and exit
code 1. -/
theorem timeout_failed_probe_witness :
    (test_stun ⟨true, true, RecvOutcome.timeout⟩).result = false ∧
    (mkExit ["test-stun.py"] 3478 ⟨true, true, RecvOutcome.timeout⟩).code = 1 :=
  ⟨(timeout_failed_probe ["test-stun.py"] ⟨true, true, RecvOutcome.timeout⟩ rfl rfl rfl).2.1,
   (timeout_failed_probe ["test-stun.py"] ⟨true, true, RecvOutcome.timeout⟩ rfl rfl rfl).2.2.2.2
     (mkExit ["test-stun.py"] 3478 ⟨true, true, RecvOutcome.timeout⟩) rfl⟩

/-- C7: every error in the taxonomy — timeout, transport error (socket
creation, send or receive failure) and malformed (short) response — is
recovered inside the probe: no exception escapes `test_stun` in any
environment, and each error case yields result `false` plus the matching
printed diagnostic. -/
theorem errors_recovered (env : Env) :
    (test_stun env).uncaught = false ∧
    (env.socketOk = true → env.sendOk = true → env.recv = RecvOutcome.timeout →
      (test_stun env).result = false ∧ Msg.timeoutMsg ∈ (test_stun env).output) ∧
    ((env.socketOk = false ∨ env.sendOk = false ∨ env.recv = RecvOutcome.fail) →
      (test_stun env).result = false ∧ Msg.errorMsg ∈ (test_stun env).output) ∧
    (∀ resp, env.socketOk = true → env.sendOk = true →
      env.recv = RecvOutcome.ok resp → resp.length < 20 →
      (test_stun env).result = false ∧ Msg.tooShortMsg ∈ (test_stun env).output) := by
  refine ⟨test_stun_uncaught_false env, ?_, ?_, ?_⟩
  · intro h1 h2 h3
    obtain ⟨so, se, rv⟩ := env
    replace h1 : so = true := h1
    replace h2 : se = true := h2
    replace h3 : rv = RecvOutcome.timeout := h3
    subst h1; subst h2; subst h3
    exact ⟨rfl, by decide⟩
  · intro h
    obtain ⟨so, se, rv⟩ := env
    rcases h with h | h | h
    · replace h : so = false := h
      subst h
      exact ⟨rfl, show Msg.errorMsg ∈ [Msg.errorMsg] by simp⟩
    · replace h : se = false := h
      subst h
      cases so
      · exact ⟨rfl, show Msg.errorMsg ∈ [Msg.errorMsg] by simp⟩
      · exact ⟨rfl, show Msg.errorMsg ∈ [Msg.testing, Msg.errorMsg] by simp⟩
    · replace h : rv = RecvOutcome.fail := h
      subst h
      cases so
      · exact ⟨rfl, show Msg.errorMsg ∈ [Msg.errorMsg] by simp⟩
      · cases se
        · exact ⟨rfl, show Msg.errorMsg ∈ [Msg.testing, Msg.errorMsg] by simp⟩
        · exact ⟨rfl,
            show Msg.errorMsg ∈ [Msg.testing, Msg.sentOk, Msg.errorMsg] by simp⟩
  · intro resp h1 h2 h3 hlen
    obtain ⟨so, se, rv⟩ := env
    replace h1 : so = true := h1
    replace h2 : se = true := h2
    replace h3 : rv = RecvOutcome.ok resp := h3
    subst h1; subst h2; subst h3
    rw [test_stun_short_eq resp hlen]
    exact ⟨rfl, by decide⟩

/-- Witness for C7: the timeout error case is recovered with a diagnostic
and a `false` result. -/
theorem errors_recovered_witness :
    (test_stun ⟨true, true, RecvOutcome.timeout⟩).result = false ∧
    Msg.timeoutMsg ∈ (test_stun ⟨true, true, RecvOutcome.timeout⟩).output :=
  (errors_recovered ⟨true, true, RecvOutcome.timeout⟩).2.1 rfl rfl rfl

/-- C8: whenever the `__main__` block completes, the exit code is 0 exactly
when the probe reported a Binding Success Response; with no host argument
the host defaults to the hardcoded test server hostname, and with no port
argument the port defaults to 3478. -/
theorem exit_codes_and_defaults (argv : List String) (env : Env) :
    (∀ e, mainEntry argv env = Except.ok e → (e.code = 0 ↔ e.run.result = true)) ∧
    (argv.length ≤ 1 → ∀ e, mainEntry argv env = Except.ok e → e.host = "mail.s0me.uk") ∧
    (argv.length ≤ 2 → ∀ e, mainEntry argv env = Except.ok e → e.port = 3478) := by
  refine ⟨?_, ?_, ?_⟩
  · intro e he
    unfold mainEntry at he
    split at he
    · split at he
      · injection he with he
        subst he
        exact mkExit_code_iff argv _ env
      · exact Except.noConfusion he
    · injection he with he
      subst he
      exact mkExit_code_iff argv _ env
  · intro hlen e he
    unfold mainEntry at he
    rw [if_neg (by omega)] at he
    injection he with he
    subst he
    show (if 1 < argv.length then argv.getD 1 "" else defaultHost) = "mail.s0me.uk"
    rw [if_neg (by omega)]
    rfl
  · intro hlen e he
    unfold mainEntry at he
    rw [if_neg (by omega)] at he
    injection he with he
    subst he
    rfl

/-- Witness for C8: with only the script name in `argv`, the run uses the
default host and port, and its exit code matches the probe verdict. -/
theorem exit_codes_and_defaults_witness :
    ((mkExit ["test-stun.py"] 3478 ⟨true, true, RecvOutcome.timeout⟩).code = 0 ↔
      (mkExit ["test-stun.py"] 3478 ⟨true, true, RecvOutcome.timeout⟩).run.result = true) ∧
    (mkExit ["test-stun.py"] 3478 ⟨true, true, RecvOutcome.timeout⟩).host = "mail.s0me.uk" ∧
    (mkExit ["test-stun.py"] 3478 ⟨true, true, RecvOutcome.timeout⟩).port = 3478 :=
  ⟨(exit_codes_and_defaults ["test-stun.py"] ⟨true, true, RecvOutcome.timeout⟩).1 _ rfl,
   (exit_codes_and_defaults ["test-stun.py"] ⟨true, true, RecvOutcome.timeout⟩).2.1
     (by decide) _ rfl,
   (exit_codes_and_defaults ["test-stun.py"] ⟨true, true, RecvOutcome.timeout⟩).2.2
     (by decide) _ rfl⟩

/-- C9: if a second command-line argument is supplied and is not a valid
integer literal, `int(sys.argv[2])` raises an uncaught `ValueError` before
the probe runs: the `__main__` block terminates with the error outcome,
which carries no probe run — no packet sent, no verdict printed. -/
theorem bad_port_uncaught (argv : List String) (env : Env)
    (h2 : 2 < argv.length) (hbad : pyInt (argv.getD 2 "") = none) :
    mainEntry argv env = Except.error PyExn.valueError := by
  unfold mainEntry
  rw [if_pos h2, hbad]

/-- Witness for C9: the port argument `"abc"` makes the program die with an
uncaught `ValueError` in every environment, here the timeout one. -/
theorem bad_port_uncaught_witness :
    2 < (["test-stun.py", "example.com", "abc"] : List String).length ∧
    pyInt ((["test-stun.py", "example.com", "abc"] : List String).getD 2 "") = none ∧
    mainEntry ["test-stun.py", "example.com", "abc"] ⟨true, true, RecvOutcome.timeout⟩ =
      Except.error PyExn.valueError :=
  ⟨by decide, by decide,
   bad_port_uncaught ["test-stun.py", "example.com", "abc"]
     ⟨true, true, RecvOutcome.timeout⟩ (by decide) (by decide)⟩
